import Mathlib

/-!
Shallow embedding of the Lava configuration package: the configuration
model, the structural validator, the enum codecs for severities and
output formats, and the finding-level severity filter and exclusion
matcher, together with theorems settling the specification claims.
-/

set_option linter.unusedVariables false

/-! ### Semantic-version validation

Embedding of the vendored `golang.org/x/mod/semver` syntax checker used
by the configuration validator. The Go code scans the string byte by
byte; we scan the character list, which agrees with the byte scan on all
accepted strings (acceptance requires every scanned byte to be ASCII).
-/

/-- Character class of identifier characters in prerelease and build
suffixes: ASCII letters, digits and the hyphen. -/
def isIdentChar (c : Char) : Bool :=
  c.isAlphanum || c == '-'

/-- A dot-separated prerelease identifier is a bad number when it is all
digits, longer than one character, and starts with a zero. -/
def isBadNum (s : List Char) : Bool :=
  s.all Char.isDigit && decide (s.length > 1) && s.head? == some '0'

/-- Numeric field scanner: consumes a non-empty run of digits with no
leading zero, returning the digits and the rest of the input. -/
def parseIntGo (v : List Char) : Option (List Char × List Char) :=
  match v with
  | [] => none
  | c :: _ =>
    if !c.isDigit then none
    else
      let t := v.takeWhile Char.isDigit
      let rest := v.dropWhile Char.isDigit
      if c == '0' && t.length != 1 then none
      else some (t, rest)

/-- Prerelease scanner: walks the characters after the hyphen, keeping
the current dot-separated identifier (reversed) in `seg`; every
identifier must be non-empty and not a bad number; stops at a plus sign
or at the end of the input, returning the unconsumed rest. -/
def scanPre : List Char → List Char → Option (List Char)
  | seg, [] =>
    if seg.isEmpty || isBadNum seg.reverse then none else some []
  | seg, c :: rest =>
    if c == '+' then
      if seg.isEmpty || isBadNum seg.reverse then none else some (c :: rest)
    else if c == '.' then
      if seg.isEmpty || isBadNum seg.reverse then none else scanPre [] rest
    else if isIdentChar c then scanPre (c :: seg) rest
    else none

/-- Build-metadata scanner: walks the characters after the plus sign; every
dot-separated identifier must be non-empty; must consume the whole input. -/
def scanBuild : List Char → List Char → Bool
  | seg, [] => !seg.isEmpty
  | seg, c :: rest =>
    if c == '.' then
      if seg.isEmpty then false else scanBuild [] rest
    else if isIdentChar c then scanBuild (c :: seg) rest
    else false

/-- After the patch number: optional prerelease part introduced by a
hyphen, then optional build part introduced by a plus sign, then the
input must be exhausted. -/
def afterPatch : List Char → Bool
  | [] => true
  | '-' :: rest =>
    match scanPre [] rest with
    | none => false
    | some [] => true
    | some ('+' :: b) => scanBuild [] b
    | some _ => false
  | '+' :: rest => scanBuild [] rest
  | _ => false

/-- After the minor number: either the end of input, or a dot, the patch
number and the suffix parts. -/
def semverPatchPart : List Char → Bool
  | [] => true
  | '.' :: v =>
    match parseIntGo v with
    | none => false
    | some (_, rest) => afterPatch rest
  | _ => false

/-- After the major number: either the end of input, or a dot, the minor
number and the remaining parts. -/
def semverMinorPart : List Char → Bool
  | [] => true
  | '.' :: v =>
    match parseIntGo v with
    | none => false
    | some (_, rest) => semverPatchPart rest
  | _ => false

/-- The part after the mandatory leading letter v: the major number and
the remaining parts. -/
def semverMajorPart (v : List Char) : Bool :=
  match parseIntGo v with
  | none => false
  | some (_, rest) => semverMinorPart rest

/-- `semver.IsValid`: the string must start with the letter v and continue
with a major number, optional dotted minor and patch numbers, and optional
prerelease and build suffixes. -/
def semverIsValid (s : String) : Bool :=
  match s.toList with
  | [] => false
  | c :: rest => c == 'v' && semverMajorPart rest

instance {ε α : Type} [DecidableEq ε] [DecidableEq α] : DecidableEq (Except ε α) :=
  fun x y =>
    match x, y with
    | .ok a, .ok b =>
      if h : a = b then .isTrue (by rw [h]) else .isFalse (by simp [h])
    | .error a, .error b =>
      if h : a = b then .isTrue (by rw [h]) else .isFalse (by simp [h])
    | .ok _, .error _ => .isFalse (by simp)
    | .error _, .ok _ => .isFalse (by simp)

/-! ### Configuration model -/

/-- `Severity` is an integer rank in the Go source (`type Severity int`). -/
abbrev Severity := Int

def SeverityCritical : Severity := 1
def SeverityHigh : Severity := 0
def SeverityMedium : Severity := -1
def SeverityLow : Severity := -2
def SeverityInfo : Severity := -3

/-- `OutputFormat` is an integer in the Go source (`type OutputFormat int`). -/
abbrev OutputFormat := Int

def OutputFormatJSON : OutputFormat := 0

/-- The typed errors of the configuration package, with the offending
string where the Go error wraps it. -/
inductive ConfigError
  | invalidLavaVersion
  | noTargets
  | noTargetIdentifier
  | invalidAssetType (s : String)
  | invalidSeverity (s : String)
  | invalidOutputFormat (s : String)
  deriving DecidableEq, Repr

/-- One target of a scan: identifier, asset type and free-form options. -/
structure Target where
  Identifier : String
  AssetType : String
  Options : List (String × String)
  deriving DecidableEq, Repr

/-- Credentials for a container registry. -/
structure RegistryAuth where
  Server : String
  Username : String
  Password : String
  deriving DecidableEq, Repr

/-- The configuration passed to the vulcan agent. -/
structure AgentConfig where
  PullPolicy : String
  Parallel : Int
  Vars : List (String × String)
  RegistriesAuth : List RegistryAuth
  deriving DecidableEq, Repr

/-- A suppression rule for findings. -/
structure Exclusion where
  Target : String
  Resource : String
  Fingerprint : String
  Summary : String
  Description : String
  deriving DecidableEq, Repr

/-- The configuration of the report. -/
structure ReportConfig where
  Severity : Severity
  Format : OutputFormat
  OutputFile : String
  Exclusions : List Exclusion
  deriving DecidableEq, Repr

/-- A Lava configuration. -/
structure Config where
  LavaVersion : String
  AgentConfig : AgentConfig
  ReportConfig : ReportConfig
  ChecktypesURLs : List String
  Targets : List Target
  LogLevel : Int
  deriving DecidableEq, Repr

/-- The zero value of `Config`, as produced by a Go composite literal
with no fields. -/
def Config.zero : Config :=
  { LavaVersion := ""
    AgentConfig := { PullPolicy := "", Parallel := 0, Vars := [], RegistriesAuth := [] }
    ReportConfig := { Severity := 0, Format := 0, OutputFile := "", Exclusions := [] }
    ChecktypesURLs := []
    Targets := []
    LogLevel := 0 }

/-! ### Structural validation and parsing -/

/-- The target loop of `validate`: returns the first error, checking each
target identifier in list order. -/
def validateTargets : List Target → Option ConfigError
  | [] => none
  | t :: ts =>
    if t.Identifier == "" then some .noTargetIdentifier
    else validateTargets ts

/-- `(*Config).validate`: version check, then non-empty target list
check, then the per-target identifier loop; first failure wins. -/
def Config.validate (c : Config) : Option ConfigError :=
  if !semverIsValid c.LavaVersion then some .invalidLavaVersion
  else if c.Targets.isEmpty then some .noTargets
  else validateTargets c.Targets

/-- The error returned by `Parse`: either the wrapped decode error or a
wrapped validation error. -/
inductive ParseError
  | decodeError
  | validateError (e : ConfigError)
  deriving DecidableEq, Repr

/-- `Parse` over the outcome of the external document decoder: a decode
failure or a validation failure pairs the zero configuration with the
error; otherwise the decoded configuration is returned with no error. -/
def Parse (decoded : Except Unit Config) : Config × Option ParseError :=
  match decoded with
  | .error _ => (Config.zero, some .decodeError)
  | .ok cfg =>
    match cfg.validate with
    | some e => (Config.zero, some (.validateError e))
    | none => (cfg, none)

/-! ### Enum codecs -/

/-- The static name table of severities. -/
def severityNames : List (String × Severity) :=
  [("critical", SeverityCritical),
   ("high", SeverityHigh),
   ("medium", SeverityMedium),
   ("low", SeverityLow),
   ("info", SeverityInfo)]

/-- `parseSeverity`: look the string up in the name table, failing with
the invalid-severity error carrying the offending string. -/
def parseSeverity (severity : String) : Except ConfigError Severity :=
  match severityNames.lookup severity with
  | some val => .ok val
  | none => .error (.invalidSeverity severity)

/-- `(*Severity).UnmarshalYAML` as explicit state passing: the pair is
the receiver value after the call and the returned error; the receiver
is assigned only after a successful parse. -/
def severityUnmarshalYAML (s : Severity) (value : String) :
    Severity × Option ConfigError :=
  match parseSeverity value with
  | .error err => (s, some err)
  | .ok severity => (severity, none)

/-- The static name table of output formats. -/
def outputFormatNames : List (String × OutputFormat) :=
  [("json", OutputFormatJSON)]

/-- `strings.ToLower` on the character list of the string. -/
def stringToLower (s : String) : String :=
  String.mk (s.data.map Char.toLower)

/-- `parseOutputFormat`: lower-case the string, then look it up in the
name table, failing with the invalid-output-format error carrying the
original offending string. -/
def parseOutputFormat (format : String) : Except ConfigError OutputFormat :=
  match outputFormatNames.lookup (stringToLower format) with
  | some val => .ok val
  | none => .error (.invalidOutputFormat format)

/-- `(*OutputFormat).UnmarshalYAML` as explicit state passing, like
`severityUnmarshalYAML`. -/
def outputFormatUnmarshalYAML (f : OutputFormat) (value : String) :
    OutputFormat × Option ConfigError :=
  match parseOutputFormat value with
  | .error err => (f, some err)
  | .ok format => (format, none)

/-- Modelled from the spec: the report layer re-encodes a `Severity`
value through an exhaustive reverse lookup of the severity name table
(the encoder itself is not among the given configuration sources). -/
def severityName (v : Severity) : Option String :=
  (severityNames.find? (fun p => p.2 == v)).map (fun p => p.1)

/-! ### Finding filtering -/

/-- A finding as consumed from the external check runner: the fields the
exclusion matcher inspects. -/
structure Finding where
  targetName : String
  resourceName : String
  fingerprint : String
  deriving DecidableEq, Repr

/-- Modelled from the spec: an exclusion rule matches a finding when each
of its non-empty fields among target, resource and fingerprint is exactly
equal to the finding's corresponding field; empty rule fields always
match (the matcher itself is not among the given configuration sources). -/
def Exclusion.matches (e : Exclusion) (f : Finding) : Bool :=
  (e.Target == "" || e.Target == f.targetName) &&
  (e.Resource == "" || e.Resource == f.resourceName) &&
  (e.Fingerprint == "" || e.Fingerprint == f.fingerprint)

/-- Modelled from the spec: a finding is excluded when any rule of the
exclusion list matches it. -/
def isExcluded (exclusions : List Exclusion) (f : Finding) : Bool :=
  exclusions.any (fun e => e.matches f)

/-- Modelled from the spec: a finding is reportable exactly when its
severity rank is at least the configured minimum severity rank (the
filter itself is not among the given configuration sources); the ranks
are the source's `Severity` constants. -/
def isReportable (f m : Severity) : Bool :=
  decide (m ≤ f)

/-! ### Helper lemmas -/

/-- A string outside the severity name table fails to parse with the
invalid-severity error carrying the string. -/
theorem parseSeverity_not_mem (s : String)
    (h : s ∉ ["critical", "high", "medium", "low", "info"]) :
    parseSeverity s = .error (.invalidSeverity s) := by
  simp only [List.mem_cons, List.not_mem_nil, or_false, not_or] at h
  obtain ⟨h1, h2, h3, h4, h5⟩ := h
  have e1 : (s == "critical") = false := by simp [h1]
  have e2 : (s == "high") = false := by simp [h2]
  have e3 : (s == "medium") = false := by simp [h3]
  have e4 : (s == "low") = false := by simp [h4]
  have e5 : (s == "info") = false := by simp [h5]
  simp [parseSeverity, severityNames, List.lookup, e1, e2, e3, e4, e5]

/-- The target loop succeeds exactly when every identifier is non-empty. -/
theorem validateTargets_eq_none (ts : List Target) :
    validateTargets ts = none ↔ ∀ t ∈ ts, t.Identifier ≠ "" := by
  induction ts with
  | nil => simp [validateTargets]
  | cons t ts ih =>
    by_cases h : t.Identifier == ""
    · simp only [beq_iff_eq] at h
      simp [validateTargets, h]
    · simp only [beq_iff_eq] at h
      simp [validateTargets, h, ih]

/-- The target loop skips over a leading block of targets with non-empty
identifiers. -/
theorem validateTargets_append (l1 rest : List Target)
    (h : ∀ u ∈ l1, u.Identifier ≠ "") :
    validateTargets (l1 ++ rest) = validateTargets rest := by
  induction l1 with
  | nil => rfl
  | cons u l1 ih =>
    have hu : (u.Identifier == "") = false := by
      simp [h u (List.mem_cons_self u l1)]
    simp only [List.cons_append, validateTargets, hu, Bool.false_eq_true,
      if_false]
    exact ih fun v hv => h v (List.mem_cons_of_mem u hv)

/-- The target loop returns either no error or the missing-identifier
error. -/
theorem validateTargets_cases (ts : List Target) :
    validateTargets ts = none ∨ validateTargets ts = some .noTargetIdentifier := by
  induction ts with
  | nil => left; rfl
  | cons t ts ih =>
    by_cases h : t.Identifier == ""
    · right; simp [validateTargets, h]
    · simpa [validateTargets, h] using ih

/-- A configuration that passes validation satisfies the structural
invariant. -/
theorem validate_none_invariant (c : Config) (hv : c.validate = none) :
    semverIsValid c.LavaVersion = true ∧ c.Targets ≠ [] ∧
    ∀ t ∈ c.Targets, t.Identifier ≠ "" := by
  cases hsv : semverIsValid c.LavaVersion with
  | false => simp [Config.validate, hsv] at hv
  | true =>
    cases hts : c.Targets.isEmpty with
    | true => simp [Config.validate, hsv, hts] at hv
    | false =>
      simp [Config.validate, hsv, hts] at hv
      refine ⟨rfl, ?_, (validateTargets_eq_none _).mp hv⟩
      intro hnil
      rw [hnil] at hts
      simp at hts

/-- A valid version string starts with the letter v. -/
theorem semverIsValid_head (s : String) (h : semverIsValid s = true) :
    s.toList.head? = some 'v' := by
  unfold semverIsValid at h
  cases hl : s.toList with
  | nil => rw [hl] at h; simp at h
  | cons c rest =>
    rw [hl] at h
    simp only [Bool.and_eq_true, beq_iff_eq] at h
    simp [h.1]

/-! ### Sanity checks of the embedding on concrete inputs -/

example : semverIsValid "v1.0.0" = true := by decide
example : semverIsValid "1.0.0" = false := by decide
example : semverIsValid "v1" = true := by decide
example : semverIsValid "v1.2" = true := by decide
example : semverIsValid "v1.0.0-rc.1+meta-2.x" = true := by decide
example : semverIsValid "v1.0.0-01" = false := by decide
example : semverIsValid "v01.0.0" = false := by decide
example : semverIsValid "v1.0.0+" = false := by decide
example : semverIsValid "v1.0.0-" = false := by decide
example : semverIsValid "" = false := by decide
example : semverIsValid "v1.0.0.0" = false := by decide
example : parseSeverity "critical" = .ok 1 := by decide
example : parseSeverity "Critical" = .error (.invalidSeverity "Critical") := by decide
example : parseOutputFormat "JSON" = .ok 0 := by decide

/-! ### Claim theorems -/

/-- C1: parseSeverity is a case-sensitive partial map: it sends
"critical" to 1, "high" to 0, "medium" to -1, "low" to -2 and "info" to
-3, and every other string fails with the invalid-severity error
carrying the offending string. -/
theorem c1_parseSeverity_case_sensitive_map :
    parseSeverity "critical" = .ok 1 ∧
    parseSeverity "high" = .ok 0 ∧
    parseSeverity "medium" = .ok (-1) ∧
    parseSeverity "low" = .ok (-2) ∧
    parseSeverity "info" = .ok (-3) ∧
    ∀ s : String, s ∉ ["critical", "high", "medium", "low", "info"] →
      parseSeverity s = .error (.invalidSeverity s) :=
  ⟨by decide, by decide, by decide, by decide, by decide,
   fun s h => parseSeverity_not_mem s h⟩

theorem c1_parseSeverity_case_sensitive_map_witness :
    parseSeverity "Critical" = .error (.invalidSeverity "Critical") ∧
    parseSeverity "critical" = .ok 1 :=
  ⟨c1_parseSeverity_case_sensitive_map.2.2.2.2.2 "Critical" (by decide),
   c1_parseSeverity_case_sensitive_map.1⟩

/-- C2: whenever Parse succeeds, the returned configuration satisfies
the validity invariant: valid version, non-empty target list, and every
target identifier non-empty. -/
theorem c2_parse_ok_invariant :
    ∀ (d : Except Unit Config) (cfg : Config), Parse d = (cfg, none) →
      semverIsValid cfg.LavaVersion = true ∧ cfg.Targets ≠ [] ∧
      ∀ t ∈ cfg.Targets, t.Identifier ≠ "" := by
  intro d cfg h
  cases d with
  | error e => simp [Parse] at h
  | ok c =>
    simp only [Parse] at h
    cases hv : c.validate with
    | some e => rw [hv] at h; simp at h
    | none =>
      rw [hv] at h
      simp only [Prod.mk.injEq] at h
      obtain ⟨rfl, -⟩ := h
      exact validate_none_invariant _ hv

theorem c2_parse_ok_invariant_witness :
    semverIsValid (Config.mk "v1.0.0" (.mk "" 0 [] []) (.mk 0 0 "" []) []
      [Target.mk "example.com" "" []] 0).LavaVersion = true ∧
    (Config.mk "v1.0.0" (.mk "" 0 [] []) (.mk 0 0 "" []) []
      [Target.mk "example.com" "" []] 0).Targets ≠ [] :=
  have h := c2_parse_ok_invariant
    (.ok (Config.mk "v1.0.0" (.mk "" 0 [] []) (.mk 0 0 "" []) []
      [Target.mk "example.com" "" []] 0))
    (Config.mk "v1.0.0" (.mk "" 0 [] []) (.mk 0 0 "" []) []
      [Target.mk "example.com" "" []] 0)
    (by decide)
  ⟨h.1, h.2.1⟩

/-- C3: validation checks run in a fixed order with first failure
winning: whenever the version is not valid semver, validation fails with
the invalid-version error regardless of the targets list. -/
theorem c3_version_check_first :
    ∀ cfg : Config, semverIsValid cfg.LavaVersion = false →
      cfg.validate = some .invalidLavaVersion := by
  intro cfg h
  simp [Config.validate, h]

theorem c3_version_check_first_witness :
    Config.validate (Config.mk "1.0" (.mk "" 0 [] []) (.mk 0 0 "" []) [] [] 0)
      = some .invalidLavaVersion ∧
    Config.validate (Config.mk "1.0" (.mk "" 0 [] []) (.mk 0 0 "" []) [] [] 0)
      ≠ some .noTargets :=
  have h := c3_version_check_first
    (Config.mk "1.0" (.mk "" 0 [] []) (.mk 0 0 "" []) [] [] 0) (by decide)
  ⟨h, by rw [h]; decide⟩

/-- C4 as stated is false: the version check does not accept plain
semver text without the leading letter v; the string 1.0.0 is rejected
with the invalid-version error while v1.0.0 is accepted. -/
theorem c4_version_check_cex :
    semverIsValid "1.0.0" = false ∧
    Config.validate (Config.mk "1.0.0" (.mk "" 0 [] []) (.mk 0 0 "" []) []
      [Target.mk "example.com" "" []] 0) = some .invalidLavaVersion ∧
    semverIsValid "v1.0.0" = true := by
  decide

/-- C4 amended: validation fails with the invalid-version error exactly
on the configurations whose version string is not accepted by the
vendored semver syntax, and that syntax requires the leading letter v
(it is mandatory, not optional). -/
theorem c4_version_check_requires_v :
    ∀ cfg : Config,
      (cfg.validate = some .invalidLavaVersion ↔
        semverIsValid cfg.LavaVersion = false) ∧
      (semverIsValid cfg.LavaVersion = true →
        cfg.LavaVersion.toList.head? = some 'v') := by
  intro cfg
  refine ⟨⟨?_, fun h => by simp [Config.validate, h]⟩,
    fun h => semverIsValid_head _ h⟩
  intro hval
  cases hsv : semverIsValid cfg.LavaVersion with
  | false => rfl
  | true =>
    exfalso
    cases hne : cfg.Targets.isEmpty with
    | true => simp [Config.validate, hsv, hne] at hval
    | false =>
      rcases validateTargets_cases cfg.Targets with h | h <;>
        simp [Config.validate, hsv, hne, h] at hval

theorem c4_version_check_requires_v_witness :
    (Config.mk "v1.0.0" (.mk "" 0 [] []) (.mk 0 0 "" []) []
      [Target.mk "example.com" "" []] 0).LavaVersion.toList.head? = some 'v' ∧
    Config.validate (Config.mk "1.0.0-beta" (.mk "" 0 [] []) (.mk 0 0 "" []) []
      [Target.mk "example.com" "" []] 0) = some .invalidLavaVersion :=
  ⟨(c4_version_check_requires_v (Config.mk "v1.0.0" (.mk "" 0 [] [])
      (.mk 0 0 "" []) [] [Target.mk "example.com" "" []] 0)).2 (by decide),
   (c4_version_check_requires_v (Config.mk "1.0.0-beta" (.mk "" 0 [] [])
      (.mk 0 0 "" []) [] [Target.mk "example.com" "" []] 0)).1.mpr (by decide)⟩

/-- C5: a finding is suppressed exactly when some exclusion rule in the
list matches it, a rule matching exactly when each of its non-empty
fields among target, resource and fingerprint equals the finding's
corresponding field; a rule with all three fields empty matches every
finding. -/
theorem c5_exclusion_match_semantics :
    ∀ (exclusions : List Exclusion) (f : Finding),
      (isExcluded exclusions f = true ↔
        ∃ e ∈ exclusions,
          (e.Target = "" ∨ e.Target = f.targetName) ∧
          (e.Resource = "" ∨ e.Resource = f.resourceName) ∧
          (e.Fingerprint = "" ∨ e.Fingerprint = f.fingerprint)) ∧
      ∀ e : Exclusion, e.Target = "" → e.Resource = "" → e.Fingerprint = "" →
        e.matches f = true := by
  intro exclusions f
  constructor
  · simp [isExcluded, Exclusion.matches, List.any_eq_true, and_assoc]
  · intro e h1 h2 h3
    simp [Exclusion.matches, h1, h2, h3]

theorem c5_exclusion_match_semantics_witness :
    isExcluded [Exclusion.mk "example.com" "" "" "" ""]
      (Finding.mk "example.com" "res" "fp") = true ∧
    isExcluded [Exclusion.mk "example.com" "" "" "" ""]
      (Finding.mk "other.com" "res" "fp") = false ∧
    Exclusion.matches (Exclusion.mk "" "" "" "" "")
      (Finding.mk "a" "b" "c") = true :=
  ⟨(c5_exclusion_match_semantics [Exclusion.mk "example.com" "" "" "" ""]
      (Finding.mk "example.com" "res" "fp")).1.mpr
      ⟨Exclusion.mk "example.com" "" "" "" "", by decide, by decide⟩,
   by decide,
   (c5_exclusion_match_semantics [] (Finding.mk "a" "b" "c")).2
     (Exclusion.mk "" "" "" "" "") rfl rfl rfl⟩

/-- C6: a finding is reportable exactly when its severity rank is at
least the configured minimum rank, under the total order on the source
severity constants; with minimum high, a medium finding is not
reportable and a critical one is. -/
theorem c6_severity_filter_total_order :
    (∀ f m : Severity, isReportable f m = true ↔ f ≥ m) ∧
    SeverityInfo < SeverityLow ∧ SeverityLow < SeverityMedium ∧
    SeverityMedium < SeverityHigh ∧ SeverityHigh < SeverityCritical ∧
    SeverityCritical = 1 ∧ SeverityHigh = 0 ∧ SeverityMedium = -1 ∧
    SeverityLow = -2 ∧ SeverityInfo = -3 ∧
    isReportable SeverityMedium SeverityHigh = false ∧
    isReportable SeverityCritical SeverityHigh = true := by
  refine ⟨fun f m => ?_, by decide, by decide, by decide, by decide, rfl, rfl,
    rfl, rfl, rfl, by decide, by decide⟩
  simp [isReportable, ge_iff_le]

/-- C7: Parse is atomic on failure: whenever it returns an error, the
configuration paired with it is the zero-value configuration. -/
theorem c7_parse_atomic_on_failure :
    ∀ (d : Except Unit Config) (e : ParseError),
      (Parse d).2 = some e → (Parse d).1 = Config.zero := by
  intro d e h
  cases d with
  | error u => simp [Parse]
  | ok c =>
    simp only [Parse] at *
    cases hv : c.validate with
    | some e2 => rfl
    | none => rw [hv] at h; exact Option.noConfusion h

theorem c7_parse_atomic_on_failure_witness :
    (Parse (.error ())).1 = Config.zero ∧
    (Parse (.ok (Config.mk "oops" (.mk "" 0 [] []) (.mk 0 0 "" []) [] [] 0))).1
      = Config.zero :=
  ⟨c7_parse_atomic_on_failure (.error ()) .decodeError (by decide),
   c7_parse_atomic_on_failure
     (.ok (Config.mk "oops" (.mk "" 0 [] []) (.mk 0 0 "" []) [] [] 0))
     (.validateError .invalidLavaVersion) (by decide)⟩

/-- C8: for each of the five severity names, decoding and then
re-encoding through the reverse lookup yields the original name, and
decoding any string outside the set fails with the invalid-severity
error. -/
theorem c8_severity_roundtrip :
    (∀ name ∈ (["critical", "high", "medium", "low", "info"] : List String),
      ∃ v, parseSeverity name = .ok v ∧ severityName v = some name) ∧
    ∀ s : String, s ∉ (["critical", "high", "medium", "low", "info"] : List String) →
      parseSeverity s = .error (.invalidSeverity s) := by
  refine ⟨?_, fun s h => parseSeverity_not_mem s h⟩
  intro name h
  simp only [List.mem_cons, List.not_mem_nil, or_false] at h
  rcases h with rfl | rfl | rfl | rfl | rfl
  · exact ⟨1, by decide, by decide⟩
  · exact ⟨0, by decide, by decide⟩
  · exact ⟨-1, by decide, by decide⟩
  · exact ⟨-2, by decide, by decide⟩
  · exact ⟨-3, by decide, by decide⟩

theorem c8_severity_roundtrip_witness :
    (∃ v, parseSeverity "critical" = .ok v ∧ severityName v = some "critical") ∧
    parseSeverity "unknown" = .error (.invalidSeverity "unknown") :=
  ⟨c8_severity_roundtrip.1 "critical" (by decide),
   c8_severity_roundtrip.2 "unknown" (by decide)⟩

/-- C9: when the version is valid and some target has an empty
identifier, validation fails with the missing-identifier error,
short-circuiting at the first such target in list order: the result is
already determined by the targets up to and including the first
offender, whatever follows it. -/
theorem c9_first_empty_identifier :
    ∀ (cfg : Config) (l1 l2 : List Target) (t : Target),
      semverIsValid cfg.LavaVersion = true →
      cfg.Targets = l1 ++ t :: l2 →
      (∀ u ∈ l1, u.Identifier ≠ "") →
      t.Identifier = "" →
      cfg.validate = some .noTargetIdentifier ∧
      ∀ l2' : List Target,
        validateTargets (l1 ++ t :: l2') = some .noTargetIdentifier := by
  intro cfg l1 l2 t hsv htg hl1 ht
  have key : ∀ l2' : List Target,
      validateTargets (l1 ++ t :: l2') = some .noTargetIdentifier := by
    intro l2'
    rw [validateTargets_append l1 (t :: l2') hl1]
    simp [validateTargets, ht]
  have hne : (l1 ++ t :: l2).isEmpty = false := by
    cases l1 <;> simp
  refine ⟨?_, key⟩
  simp [Config.validate, hsv, htg, hne, key l2]

theorem c9_first_empty_identifier_witness :
    Config.validate (Config.mk "v1.0.0" (.mk "" 0 [] []) (.mk 0 0 "" []) []
      [Target.mk "example.com" "" [], Target.mk "" "" [],
       Target.mk "x" "" []] 0) = some .noTargetIdentifier ∧
    validateTargets ([Target.mk "example.com" "" []] ++ Target.mk "" "" [] :: [])
      = some .noTargetIdentifier :=
  have h := c9_first_empty_identifier
    (Config.mk "v1.0.0" (.mk "" 0 [] []) (.mk 0 0 "" []) []
      [Target.mk "example.com" "" [], Target.mk "" "" [], Target.mk "x" "" []] 0)
    [Target.mk "example.com" "" []] [Target.mk "x" "" []] (Target.mk "" "" [])
    (by decide) (by decide) (by decide) (by decide)
  ⟨h.1, h.2 []⟩

/-- C10: the YAML field decoders for severities and output formats leave
the receiver unchanged when the token is unrecognized: the receiver is
assigned only after a successful parse. -/
theorem c10_unmarshal_receiver_unchanged_on_error :
    ∀ (s : Severity) (v : String) (f : OutputFormat) (w : String),
      ((severityUnmarshalYAML s v).2.isSome →
        (severityUnmarshalYAML s v).1 = s) ∧
      ((outputFormatUnmarshalYAML f w).2.isSome →
        (outputFormatUnmarshalYAML f w).1 = f) := by
  intro s v f w
  constructor
  · unfold severityUnmarshalYAML
    cases parseSeverity v <;> simp
  · unfold outputFormatUnmarshalYAML
    cases parseOutputFormat w <;> simp

theorem c10_unmarshal_receiver_unchanged_on_error_witness :
    (severityUnmarshalYAML SeverityHigh "Critical").1 = SeverityHigh ∧
    (outputFormatUnmarshalYAML OutputFormatJSON "xml").1 = OutputFormatJSON :=
  ⟨(c10_unmarshal_receiver_unchanged_on_error SeverityHigh "Critical"
      OutputFormatJSON "xml").1 (by decide),
   (c10_unmarshal_receiver_unchanged_on_error SeverityHigh "Critical"
      OutputFormatJSON "xml").2 (by decide)⟩
